import Mathlib

/-!
Verification of the DI-IT2-FLC-FM position controller
(`src/center_alignment/controllers/src/DI-IT2-FLC-FM.cpp`).

The controller's `double` arithmetic is embedded as exact rational
arithmetic (`ℚ`); the purely mathematical angle-unwrap contract, which is
stated against the real number π, is additionally embedded over `ℝ`.
The periodic control loop is embedded as a function `tick` on an explicit
state record holding every process-scope variable the loop reads or
writes.
-/

namespace DIIT2FLCFM

/-- Source `DI_IT2_FLC_FM::phi` (line 126): the blended control-surface
value `sigma1 + sigma2 - (|sigma1|*sigma2 + sigma1*|sigma2|)/2`,
stated over any linear ordered field so that it serves both the `ℚ`
embedding of the loop and the `ℝ` statement of continuity. -/
def phi {K : Type} [LinearOrderedField K] (sigma1 sigma2 : K) : K :=
  sigma1 + sigma2 - (|sigma1| * sigma2 + sigma1 * |sigma2|) / 2

/-- Source `DI_IT2_FLC_FM::bound` (line 130):
`n <= -1 ? -1 : n >= 1 ? 1 : n`. -/
def bound {K : Type} [LinearOrderedField K] (n : K) : K :=
  if n ≤ -1 then -1 else if n ≥ 1 then 1 else n

/-- The exact rational value of the IEEE-754 `double` constant `M_PI`,
namely `884279719003555 / 2^48`, standing for the C constant `M_PI` in
the exact-rational embedding of the `double` arithmetic. -/
def mpi : ℚ := 884279719003555 / 281474976710656

/-- Source `DI_IT2_FLC_FM::denormalizeAngle` (lines 83-91): if
`|a2 - a1| > M_PI` then shift `a1` by `-2π` when `a2 < a1`, by `+2π`
otherwise; else return `a1` unchanged. -/
def denormalizeAngle (a1 a2 : ℚ) : ℚ :=
  if |a2 - a1| > mpi then
    (if a2 < a1 then a1 - 2 * mpi else a1 + 2 * mpi)
  else a1

/-- A 4-component vector `(x, y, z, w)` standing for Eigen `Vector4d`;
component indices 0,1,2,3 of the source are fields `x,y,z,w`. -/
structure Vec4 where
  x : ℚ
  y : ℚ
  z : ℚ
  w : ℚ
deriving DecidableEq, Repr

instance : Add Vec4 := ⟨fun a b => ⟨a.x + b.x, a.y + b.y, a.z + b.z, a.w + b.w⟩⟩

instance : Sub Vec4 := ⟨fun a b => ⟨a.x - b.x, a.y - b.y, a.z - b.z, a.w - b.w⟩⟩

/-- Componentwise scaling `v * c` of a `Vector4d` by a scalar. -/
def Vec4.scale (c : ℚ) (v : Vec4) : Vec4 :=
  ⟨v.x * c, v.y * c, v.z * c, v.w * c⟩

/-- Componentwise application, used for the per-axis `bound` calls of
lines 159-160. -/
def Vec4.map (f : ℚ → ℚ) (v : Vec4) : Vec4 :=
  ⟨f v.x, f v.y, f v.z, f v.w⟩

/-- Componentwise pairing, used for the per-axis `phi` calls of line 162. -/
def Vec4.zip (f : ℚ → ℚ → ℚ) (a b : Vec4) : Vec4 :=
  ⟨f a.x b.x, f a.y b.y, f a.z b.z, f a.w b.w⟩

/-- The process-scope mutable state read and written by the control loop:
the sensor snapshot (`pose`, `velocity`), the trajectory snapshot
(`pose_d`, `velocity_d`), the last computed errors (`error`, `error_d`),
the two integral accumulators (`error_i`, `phi_i`), the freshness flag
`new_odometry`, and the gain set. -/
structure State where
  pose : Vec4
  pose_d : Vec4
  velocity : Vec4
  velocity_d : Vec4
  error : Vec4
  error_d : Vec4
  error_i : Vec4
  phi_i : Vec4
  new_odometry : Bool
  k_p : ℚ
  k_d : ℚ
  k_a : ℚ
  k_b : ℚ
  alpha1 : ℚ
  alpha2 : ℚ
deriving DecidableEq, Repr

/-- The tick period, `(double)1/100` of line 140. -/
def dt : ℚ := 1 / 100

/-- Line 151: `pose(3) = denormalizeAngle(pose(3), pose_d(3))` — the pose
with its yaw unwrapped toward the desired yaw. -/
def poseUnwrapped (s : State) : Vec4 :=
  { s.pose with w := denormalizeAngle s.pose.w s.pose_d.w }

/-- Line 155: `error = pose_d - pose` (with the yaw of `pose` already
unwrapped by line 151). -/
def errorVec (s : State) : Vec4 :=
  s.pose_d - poseUnwrapped s

/-- Line 156: `error_d = velocity_d - velocity`. -/
def errorDVec (s : State) : Vec4 :=
  s.velocity_d - s.velocity

/-- Line 157: `error_i += error * dt` — the updated position-error
integral. -/
def errorIVec (s : State) : Vec4 :=
  s.error_i + Vec4.scale dt (errorVec s)

/-- Line 159: `sigma1 << bound(k_p * error(i))` per axis. -/
def sigma1Vec (s : State) : Vec4 :=
  Vec4.map (fun e => bound (s.k_p * e)) (errorVec s)

/-- Line 160: `sigma2 << bound(k_d * error_d(i))` per axis. -/
def sigma2Vec (s : State) : Vec4 :=
  Vec4.map (fun e => bound (s.k_d * e)) (errorDVec s)

/-- Line 162: `phi_p << phi(sigma1(i), sigma2(i))` per axis. -/
def phiPVec (s : State) : Vec4 :=
  Vec4.zip phi (sigma1Vec s) (sigma2Vec s)

/-- Line 163: `phi_i += phi_p * dt` — the updated fuzzy-output integral. -/
def phiIVec (s : State) : Vec4 :=
  s.phi_i + Vec4.scale dt (phiPVec s)

/-- Lines 165-168: the emitted `velocity_msg`, composed from the blended
values and the (already updated) integrals; the `w` (yaw) component is
the bare `phi_p(3)`. -/
def command (s : State) : Vec4 :=
  ⟨s.k_a * (phiPVec s).x + s.k_b * (phiIVec s).x
      + (1 - s.alpha1 * s.alpha2) * (errorIVec s).x,
   s.k_a * (phiPVec s).y + s.k_b * (phiIVec s).y
      + (1 - s.alpha1 * s.alpha2) * (errorIVec s).y,
   s.k_a * (phiPVec s).z + s.k_b * (phiIVec s).z
      + (1 - s.alpha1 * s.alpha2) * (errorIVec s).z,
   (phiPVec s).w⟩

/-- One iteration of the `while(ros::ok())` body (lines 150-178): when the
trajectory gate `pose_d(2) > -10` is open and a fresh odometry sample is
present, unwrap the yaw, update errors and both integrals, and emit the
command; otherwise do nothing. Either way the freshness flag is cleared
at tick end (line 178). Returns the emitted command (if any) and the
next state. -/
def tick (s : State) : Option Vec4 × State :=
  if s.pose_d.z > -10 ∧ s.new_odometry = true then
    (some (command s),
     { s with
        pose := poseUnwrapped s
        error := errorVec s
        error_d := errorDVec s
        error_i := errorIVec s
        phi_i := phiIVec s
        new_odometry := false })
  else
    (none, { s with new_odometry := false })

/-- A tick preceded by a fresh delivery of the sensor sample already held
in the state: the odometry callback (line 14) sets `new_odometry = true`,
then the loop body runs. Used to express runs of consecutive valid
ticks. -/
def freshTick (s : State) : State :=
  (tick { s with new_odometry := true }).2

/-- Gain set `{k_p, k_d, k_a, k_b, alpha1, alpha2}` initialized by the
constructor (lines 57-72). -/
structure Gains where
  k_p : ℚ
  k_d : ℚ
  k_a : ℚ
  k_b : ℚ
  alpha1 : ℚ
  alpha2 : ℚ
deriving DecidableEq, Repr

/-- The built-in defaults of lines 66-71. -/
def defaultGains : Gains :=
  ⟨1, 4 / 1000, 77 / 1000, 7336 / 1000, 1 / 2, 1 / 2⟩

/-- Constructor gain parsing (lines 57-72): `argv` is the argument
vector (index 0 the program name, so `argc = argv.length`), `atof` the C
string-to-double conversion left abstract. When `argc > 1` the code reads
`argv[1]` through `argv[6]` unconditionally; an out-of-bounds read is
embedded as the `none` of `List.get?`, making the whole initialization
fail. Only when `argc ≤ 1` do the built-in defaults apply. -/
def initGains (atof : String → ℚ) (argv : List String) : Option Gains :=
  if argv.length > 1 then
    (argv.get? 1).bind fun a1 =>
    (argv.get? 2).bind fun a2 =>
    (argv.get? 3).bind fun a3 =>
    (argv.get? 4).bind fun a4 =>
    (argv.get? 5).bind fun a5 =>
    (argv.get? 6).bind fun a6 =>
    some ⟨atof a1, atof a2, atof a3, atof a4, atof a5, atof a6⟩
  else
    some defaultGains

/-- First denominator of `DI_IT2_FLC_FM::phi1` (line 95). -/
def phi1_den1 (alpha1 alpha2 sigma1 sigma2 : ℚ) : ℚ :=
  (sigma1 + 1) * (sigma2 + 1) + alpha1 * alpha2 * sigma1 * sigma2
    - alpha1 * alpha2 * sigma1 * (sigma2 + 1)
    - alpha1 * alpha2 * sigma2 * (sigma1 + 1)

/-- Second denominator of `DI_IT2_FLC_FM::phi1` (line 97). -/
def phi1_den2 (alpha1 alpha2 sigma1 sigma2 : ℚ) : ℚ :=
  sigma1 * sigma2 - sigma1 * (sigma2 + 1) - sigma2 * (sigma1 + 1)
    + alpha1 * alpha2 * (sigma1 + 1) * (sigma2 + 1)

/-- Source `DI_IT2_FLC_FM::phi1` (lines 93-98), with the member gains
`alpha1, alpha2` made explicit parameters. -/
def phi1 (alpha1 alpha2 sigma1 sigma2 : ℚ) : ℚ :=
  ((alpha1 * alpha2 * sigma1 * (sigma2 + 1)) / 2
      - (alpha1 * alpha2 * sigma1 * sigma2) / 2
      + (alpha1 * alpha2 * sigma2 * (sigma1 + 1)) / 2)
    / phi1_den1 alpha1 alpha2 sigma1 sigma2
  + ((sigma1 * (sigma2 + 1)) / 2 - (sigma1 * sigma2) / 2
      + (sigma2 * (sigma1 + 1)) / 2)
    / phi1_den2 alpha1 alpha2 sigma1 sigma2

/-- First denominator of `DI_IT2_FLC_FM::phi2` (line 102). -/
def phi2_den1 (alpha1 alpha2 sigma1 sigma2 : ℚ) : ℚ :=
  sigma1 * (sigma2 + 1) - alpha1 * alpha2 * sigma1 * sigma2
    + alpha1 * alpha2 * sigma2 * (sigma1 - 1)
    - alpha1 * alpha2 * (sigma1 - 1) * (sigma2 + 1)

/-- Second denominator of `DI_IT2_FLC_FM::phi2` (line 104). -/
def phi2_den2 (alpha1 alpha2 sigma1 sigma2 : ℚ) : ℚ :=
  sigma2 * (sigma1 - 1) - alpha1 * alpha2 * sigma1 * sigma2
    + alpha1 * alpha2 * sigma1 * (sigma2 + 1)
    - alpha1 * alpha2 * (sigma1 - 1) * (sigma2 + 1)

/-- Source `DI_IT2_FLC_FM::phi2` (lines 100-105). -/
def phi2 (alpha1 alpha2 sigma1 sigma2 : ℚ) : ℚ :=
  ((sigma1 * (sigma2 + 1)) / 2 - (alpha1 * alpha2 * sigma2 * (sigma1 - 1)) / 2)
    / phi2_den1 alpha1 alpha2 sigma1 sigma2
  - ((sigma2 * (sigma1 - 1)) / 2 - (alpha1 * alpha2 * sigma1 * (sigma2 + 1)) / 2)
    / phi2_den2 alpha1 alpha2 sigma1 sigma2

/-- First denominator of `DI_IT2_FLC_FM::phi3` (line 109). -/
def phi3_den1 (alpha1 alpha2 sigma1 sigma2 : ℚ) : ℚ :=
  (sigma1 - 1) * (sigma2 - 1) + alpha1 * alpha2 * sigma1 * sigma2
    - alpha1 * alpha2 * sigma1 * (sigma2 - 1)
    - alpha1 * alpha2 * sigma2 * (sigma1 - 1)

/-- Second denominator of `DI_IT2_FLC_FM::phi3` (line 111). -/
def phi3_den2 (alpha1 alpha2 sigma1 sigma2 : ℚ) : ℚ :=
  sigma1 * sigma2 - sigma1 * (sigma2 - 1) - sigma2 * (sigma1 - 1)
    + alpha1 * alpha2 * (sigma1 - 1) * (sigma2 - 1)

/-- Source `DI_IT2_FLC_FM::phi3` (lines 107-112). -/
def phi3 (alpha1 alpha2 sigma1 sigma2 : ℚ) : ℚ :=
  - ((alpha1 * alpha2 * sigma1 * (sigma2 - 1)) / 2
      - (alpha1 * alpha2 * sigma1 * sigma2) / 2
      + (alpha1 * alpha2 * sigma2 * (sigma1 - 1)) / 2)
    / phi3_den1 alpha1 alpha2 sigma1 sigma2
  - ((sigma1 * (sigma2 - 1)) / 2 - (sigma1 * sigma2) / 2
      + (sigma2 * (sigma1 - 1)) / 2)
    / phi3_den2 alpha1 alpha2 sigma1 sigma2

/-- Denominator of the `sigma1 ≤ 0` branch of `DI_IT2_FLC_FM::omega12`
(line 116). -/
def omega12_denNeg (alpha1 alpha2 sigma1 : ℚ) : ℚ :=
  sigma1 - alpha1 * alpha2 * sigma1 + 1

/-- Denominator of the `sigma1 > 0` branch of `DI_IT2_FLC_FM::omega12`
(line 117). -/
def omega12_denPos (alpha1 alpha2 sigma1 : ℚ) : ℚ :=
  sigma1 + alpha1 * alpha2 - alpha1 * alpha2 * sigma1

/-- Source `DI_IT2_FLC_FM::omega12` (lines 114-118). -/
def omega12 (alpha1 alpha2 sigma1 : ℚ) : ℚ :=
  if sigma1 ≤ 0 then
    (-(alpha1 * alpha2 * sigma1)) / omega12_denNeg alpha1 alpha2 sigma1
  else
    (-sigma1) / omega12_denPos alpha1 alpha2 sigma1

/-- Denominator of the `sigma1 ≤ 0` branch of `DI_IT2_FLC_FM::omega23`
(line 122). -/
def omega23_denNeg (alpha1 alpha2 sigma1 : ℚ) : ℚ :=
  alpha1 * alpha2 - sigma1 + alpha1 * alpha2 * sigma1

/-- Denominator of the `sigma1 > 0` branch of `DI_IT2_FLC_FM::omega23`
(line 123). -/
def omega23_denPos (alpha1 alpha2 sigma1 : ℚ) : ℚ :=
  alpha1 * alpha2 * sigma1 - sigma1 + 1

/-- Source `DI_IT2_FLC_FM::omega23` (lines 120-124). -/
def omega23 (alpha1 alpha2 sigma1 : ℚ) : ℚ :=
  if sigma1 ≤ 0 then
    (-sigma1) / omega23_denNeg alpha1 alpha2 sigma1
  else
    (-(alpha1 * alpha2 * sigma1)) / omega23_denPos alpha1 alpha2 sigma1

/-- A state exercising one valid tick: fresh sample present, trajectory
gate open (`pose_d.z = 0 > -10`), zero integrals, unit position error on
the x axis, gains `k_p = 1, k_d = 0, k_a = 1, k_b = 0,
alpha1 = alpha2 = 1/2`. -/
def exState : State :=
  { pose := ⟨0, 0, 0, 0⟩, pose_d := ⟨1, 0, 0, 0⟩, velocity := ⟨0, 0, 0, 0⟩,
    velocity_d := ⟨0, 0, 0, 0⟩, error := ⟨0, 0, 0, 0⟩, error_d := ⟨0, 0, 0, 0⟩,
    error_i := ⟨0, 0, 0, 0⟩, phi_i := ⟨0, 0, 0, 0⟩, new_odometry := true,
    k_p := 1, k_d := 0, k_a := 1, k_b := 0, alpha1 := 1/2, alpha2 := 1/2 }

/-- The state `exState` with the trajectory still unreceived: `pose_d.z`
holds the sentinel value `-10`, while a fresh sensor sample is present. -/
def awaitState : State :=
  { exState with pose_d := ⟨1, 0, -10, 0⟩ }

/-- The state `exState` with no fresh sensor sample since the previous
tick. -/
def staleState : State :=
  { exState with new_odometry := false }

theorem Vec4.add_def (a b : Vec4) :
    a + b = ⟨a.x + b.x, a.y + b.y, a.z + b.z, a.w + b.w⟩ := rfl

theorem Vec4.sub_def (a b : Vec4) :
    a - b = ⟨a.x - b.x, a.y - b.y, a.z - b.z, a.w - b.w⟩ := rfl

/-- C6: the unwrap bound `|unwrapToNearest(a, reference) - reference| ≤ π`
fails for arbitrary inputs: at `a = 4π, reference = 0` the single `-2π`
shift of line 86 leaves the result at `2π`, still more than π away from
the reference. -/
theorem denormalizeAngle_counterexample :
    ¬ (|denormalizeAngle (4 * mpi) 0 - 0| ≤ mpi) := by
  norm_num [denormalizeAngle, mpi, abs]

/-- C6 (amended): whenever `a` starts within `3π` of the reference, the
unwrapped angle lies within π of the reference; when `|reference - a| > π`
the function shifts `a` by `±2π` toward the reference, otherwise it
returns `a` unchanged, and a single `±2π` shift suffices exactly on this
domain. -/
theorem denormalizeAngle_within_pi (a1 a2 : ℚ) (h : |a2 - a1| ≤ 3 * mpi) :
    |denormalizeAngle a1 a2 - a2| ≤ mpi := by
  have hm : 0 < mpi := by norm_num [mpi]
  unfold denormalizeAngle
  by_cases hgt : |a2 - a1| > mpi
  · rw [if_pos hgt]
    by_cases hlt : a2 < a1
    · rw [if_pos hlt]
      have h1 : mpi < a1 - a2 := by
        rwa [abs_sub_comm, abs_of_pos (by linarith)] at hgt
      have h2 : a1 - a2 ≤ 3 * mpi := by
        rwa [abs_sub_comm, abs_of_pos (by linarith)] at h
      rw [abs_le]
      constructor <;> linarith
    · rw [if_neg hlt]
      push_neg at hlt
      have h1 : mpi < a2 - a1 := by
        rwa [abs_of_nonneg (by linarith)] at hgt
      have h2 : a2 - a1 ≤ 3 * mpi := by
        rwa [abs_of_nonneg (by linarith)] at h
      rw [abs_le]
      constructor <;> linarith
  · rw [if_neg hgt]
    push_neg at hgt
    rwa [abs_sub_comm]

/-- C6 witness: a concrete angle within `3π` of its reference is unwrapped
to within π of it. -/
theorem denormalizeAngle_within_pi_witness :
    |denormalizeAngle 1 0 - 0| ≤ mpi :=
  denormalizeAngle_within_pi 1 0 (by norm_num [mpi])

/-- C7: the blended control surface `phi` is symmetric in its two
arguments and takes the anchor values `phi(0,0) = 0`, `phi(1,1) = 1`,
`phi(-1,-1) = -1`. -/
theorem phi_symm_and_anchors :
    (∀ s1 s2 : ℝ, phi s1 s2 = phi s2 s1) ∧
    phi (0 : ℝ) 0 = 0 ∧ phi (1 : ℝ) 1 = 1 ∧ phi (-1 : ℝ) (-1) = -1 := by
  refine ⟨fun s1 s2 => ?_, by norm_num [phi], by norm_num [phi],
    by norm_num [phi]⟩
  unfold phi
  ring

/-- C8: on the square `[-1,1] × [-1,1]` the blended surface `phi` takes
values in `[-2,2]`, and `phi` is continuous (even on all of `ℝ × ℝ`). -/
theorem phi_bounded_and_continuous :
    (∀ s1 s2 : ℝ, -1 ≤ s1 → s1 ≤ 1 → -1 ≤ s2 → s2 ≤ 1 →
        -2 ≤ phi s1 s2 ∧ phi s1 s2 ≤ 2) ∧
    Continuous (fun p : ℝ × ℝ => phi p.1 p.2) := by
  constructor
  · intro s1 s2 h1l h1u h2l h2u
    unfold phi
    rcases abs_cases s1 with ⟨e1, _⟩ | ⟨e1, _⟩ <;>
      rcases abs_cases s2 with ⟨e2, _⟩ | ⟨e2, _⟩ <;>
      rw [e1, e2] <;> constructor <;> nlinarith
  · unfold phi
    exact (continuous_fst.add continuous_snd).sub
      (((continuous_fst.abs.mul continuous_snd).add
        (continuous_fst.mul continuous_snd.abs)).div_const 2)

/-- C8 witness: the bound instantiated at the concrete point
`(1/2, 1/2)`. -/
theorem phi_bounded_witness :
    -2 ≤ phi (1/2 : ℝ) (1/2) ∧ phi (1/2 : ℝ) (1/2) ≤ 2 :=
  phi_bounded_and_continuous.1 (1/2) (1/2) (by norm_num) (by norm_num)
    (by norm_num) (by norm_num)

/-- C9: inside the admissible domain `sigma1, sigma2 ∈ [-1,1]`,
`alpha1, alpha2 ∈ [0,1]`, a denominator of the full three-region
compositor vanishes: at `sigma1 = sigma2 = 0, alpha1 = alpha2 = 0` the
second denominator of `phi1` is exactly zero (and the negative-branch
denominator of `omega12` vanishes at `sigma1 = -1` with the same alphas),
so the unguarded division is reachable. -/
theorem compositor_denominator_vanishes :
    ∃ sigma1 sigma2 alpha1 alpha2 : ℚ,
      -1 ≤ sigma1 ∧ sigma1 ≤ 1 ∧ -1 ≤ sigma2 ∧ sigma2 ≤ 1 ∧
      0 ≤ alpha1 ∧ alpha1 ≤ 1 ∧ 0 ≤ alpha2 ∧ alpha2 ≤ 1 ∧
      phi1_den2 alpha1 alpha2 sigma1 sigma2 = 0 ∧
      omega12_denNeg alpha1 alpha2 (-1) = 0 := by
  refine ⟨0, 0, 0, 0, by norm_num, by norm_num, by norm_num, by norm_num,
    le_refl 0, by norm_num, le_refl 0, by norm_num, ?_, ?_⟩
  · norm_num [phi1_den2]
  · norm_num [omega12_denNeg]

/-- C1: on a valid tick (gate open and fresh sample present) the emitted
command is `command s`, whose x, y, z components are
`k_a·phiValue + k_b·fuzzyIntegral + (1 - alpha1·alpha2)·positionIntegral`
(with the integrals already updated this tick, lines 157 and 163) and
whose yaw component is the bare blended value `phi_p(3)`. -/
theorem valid_tick_command_composition (s : State)
    (hz : s.pose_d.z > -10) (hf : s.new_odometry = true) :
    (tick s).1 = some (command s) ∧
    (command s).x = s.k_a * (phiPVec s).x + s.k_b * (phiIVec s).x
        + (1 - s.alpha1 * s.alpha2) * (errorIVec s).x ∧
    (command s).y = s.k_a * (phiPVec s).y + s.k_b * (phiIVec s).y
        + (1 - s.alpha1 * s.alpha2) * (errorIVec s).y ∧
    (command s).z = s.k_a * (phiPVec s).z + s.k_b * (phiIVec s).z
        + (1 - s.alpha1 * s.alpha2) * (errorIVec s).z ∧
    (command s).w = (phiPVec s).w :=
  ⟨by simp [tick, hz, hf], rfl, rfl, rfl, rfl⟩

/-- C1 witness: the command composition at the concrete state
`exState`. -/
theorem valid_tick_command_composition_witness :
    (tick exState).1 = some (command exState) ∧
    (command exState).x = exState.k_a * (phiPVec exState).x
        + exState.k_b * (phiIVec exState).x
        + (1 - exState.alpha1 * exState.alpha2) * (errorIVec exState).x ∧
    (command exState).y = exState.k_a * (phiPVec exState).y
        + exState.k_b * (phiIVec exState).y
        + (1 - exState.alpha1 * exState.alpha2) * (errorIVec exState).y ∧
    (command exState).z = exState.k_a * (phiPVec exState).z
        + exState.k_b * (phiIVec exState).z
        + (1 - exState.alpha1 * exState.alpha2) * (errorIVec exState).z ∧
    (command exState).w = (phiPVec exState).w :=
  valid_tick_command_composition exState (by norm_num [exState]) rfl

/-- C2: while `pose_d.z` holds the sentinel (≤ -10) a tick emits no
command and changes nothing except clearing the freshness flag,
regardless of sensor input; and any tick at which `pose_d.z > -10` with
a fresh sample emits exactly one command. -/
theorem gating_sentinel_behavior :
    (∀ s : State, s.pose_d.z ≤ -10 →
        (tick s).1 = none ∧
        (tick s).2 = { s with new_odometry := false }) ∧
    (∀ s : State, s.pose_d.z > -10 → s.new_odometry = true →
        (tick s).1 = some (command s)) := by
  constructor
  · intro s hz
    have hc : ¬ (s.pose_d.z > -10 ∧ s.new_odometry = true) := by
      rintro ⟨h1, _⟩
      linarith
    constructor <;> simp [tick, hc]
  · intro s hz hf
    simp [tick, hz, hf]

/-- C2 witness: with the sentinel held (`pose_d.z = -10`) and a fresh
sample present no command is emitted and only the flag changes; on the
gate-open state a command is emitted. -/
theorem gating_sentinel_behavior_witness :
    (tick awaitState).1 = none ∧
    (tick awaitState).2 = { awaitState with new_odometry := false } ∧
    (tick exState).1 = some (command exState) :=
  ⟨(gating_sentinel_behavior.1 awaitState (by norm_num [awaitState])).1,
   (gating_sentinel_behavior.1 awaitState (by norm_num [awaitState])).2,
   gating_sentinel_behavior.2 exState (by norm_num [exState]) rfl⟩

/-- One valid fresh tick preserves the trajectory snapshot and the x, y,
z components of the pose, and advances each position-integral component
by the (constant) position error times `dt`. Helper for the integral
accumulation theorem. -/
theorem freshTick_step (s : State) (hz : s.pose_d.z > -10) :
    (freshTick s).pose_d = s.pose_d ∧
    (freshTick s).pose.x = s.pose.x ∧
    (freshTick s).pose.y = s.pose.y ∧
    (freshTick s).pose.z = s.pose.z ∧
    (freshTick s).error_i.x = s.error_i.x + (s.pose_d.x - s.pose.x) * dt ∧
    (freshTick s).error_i.y = s.error_i.y + (s.pose_d.y - s.pose.y) * dt ∧
    (freshTick s).error_i.z = s.error_i.z + (s.pose_d.z - s.pose.z) * dt := by
  refine ⟨?_, ?_, ?_, ?_, ?_, ?_, ?_⟩ <;>
    simp [freshTick, tick, hz, errorIVec, errorVec, poseUnwrapped,
      Vec4.scale, Vec4.sub_def, Vec4.add_def]

/-- N valid fresh ticks preserve the trajectory snapshot and the x, y, z
pose components, and accumulate each position-integral component
linearly. Helper for the integral accumulation theorem. -/
theorem freshTick_iterate (s : State) (hz : s.pose_d.z > -10) (N : ℕ) :
    (freshTick^[N] s).pose_d = s.pose_d ∧
    (freshTick^[N] s).pose.x = s.pose.x ∧
    (freshTick^[N] s).pose.y = s.pose.y ∧
    (freshTick^[N] s).pose.z = s.pose.z ∧
    (freshTick^[N] s).error_i.x
      = s.error_i.x + N * ((s.pose_d.x - s.pose.x) * dt) ∧
    (freshTick^[N] s).error_i.y
      = s.error_i.y + N * ((s.pose_d.y - s.pose.y) * dt) ∧
    (freshTick^[N] s).error_i.z
      = s.error_i.z + N * ((s.pose_d.z - s.pose.z) * dt) := by
  induction N with
  | zero => simp
  | succ n ih =>
    obtain ⟨hpd, hpx, hpy, hpz, hix, hiy, hiz⟩ := ih
    have hz' : (freshTick^[n] s).pose_d.z > -10 := by rw [hpd]; exact hz
    obtain ⟨spd, spx, spy, spz, six, siy, siz⟩ :=
      freshTick_step (freshTick^[n] s) hz'
    rw [Function.iterate_succ_apply']
    refine ⟨by rw [spd, hpd], by rw [spx, hpx], by rw [spy, hpy],
      by rw [spz, hpz], ?_, ?_, ?_⟩
    · rw [six, hix, hpd, hpx]
      push_cast
      ring
    · rw [siy, hiy, hpd, hpy]
      push_cast
      ring
    · rw [siz, hiz, hpd, hpz]
      push_cast
      ring

/-- C3: starting from zero integrals, after N consecutive valid fresh
ticks at period `dt` with the position error held at the constants
`ex, ey, ez` per axis, the position-error integral equals `N·e·dt`
exactly on each position axis. -/
theorem integral_accumulation (s : State) (N : ℕ) (ex ey ez : ℚ)
    (hz : s.pose_d.z > -10)
    (h0x : s.error_i.x = 0) (h0y : s.error_i.y = 0) (h0z : s.error_i.z = 0)
    (hex : s.pose_d.x - s.pose.x = ex)
    (hey : s.pose_d.y - s.pose.y = ey)
    (hez : s.pose_d.z - s.pose.z = ez) :
    (freshTick^[N] s).error_i.x = N * ex * dt ∧
    (freshTick^[N] s).error_i.y = N * ey * dt ∧
    (freshTick^[N] s).error_i.z = N * ez * dt := by
  obtain ⟨_, _, _, _, hx, hy, hzz⟩ := freshTick_iterate s hz N
  refine ⟨?_, ?_, ?_⟩
  · rw [hx, h0x, hex]
    ring
  · rw [hy, h0y, hey]
    ring
  · rw [hzz, h0z, hez]
    ring

/-- C3 witness: two fresh ticks from `exState` (constant unit error on x,
zero error on y and z) accumulate `2·1·dt` on the x axis. -/
theorem integral_accumulation_witness :
    (freshTick^[2] exState).error_i.x = ((2 : ℕ) : ℚ) * 1 * dt ∧
    (freshTick^[2] exState).error_i.y = ((2 : ℕ) : ℚ) * 0 * dt ∧
    (freshTick^[2] exState).error_i.z = ((2 : ℕ) : ℚ) * 0 * dt :=
  integral_accumulation exState 2 1 0 0 (by norm_num [exState]) rfl rfl rfl
    (by norm_num [exState]) (by norm_num [exState]) (by norm_num [exState])

/-- C4: a tick with no fresh sample leaves the whole controller state
unchanged (the flag was already clear and clearing it again is the
identity), emits no command, and ends with the freshness flag clear. -/
theorem stale_tick_no_effect (s : State) (h : s.new_odometry = false) :
    tick s = (none, s) ∧ (tick s).2.new_odometry = false := by
  have hc : ¬ (s.pose_d.z > -10 ∧ s.new_odometry = true) := by
    simp [h]
  constructor
  · cases s
    simp_all [tick]
  · simp [tick, hc]

/-- C4 witness: the stale concrete state passes through a tick
untouched. -/
theorem stale_tick_no_effect_witness :
    tick staleState = (none, staleState) ∧
    (tick staleState).2.new_odometry = false :=
  stale_tick_no_effect staleState rfl

/-- C5 fails as stated: at the concrete state `exState` (which satisfies
every premise of the claim — `alpha1 = alpha2 = 1/2`, `k_a = 1`,
`k_b = 0`, zero integrals, valid fresh tick) the emitted
`command.x = 403/400` while `phiValue.x = 1`: the position integral is
updated on line 157 before the command is composed on line 165, so the
first tick already carries an integral contribution. -/
theorem first_tick_counterexample :
    exState.alpha1 = 1/2 ∧ exState.alpha2 = 1/2 ∧ exState.k_a = 1 ∧
    exState.k_b = 0 ∧ exState.error_i = ⟨0, 0, 0, 0⟩ ∧
    exState.phi_i = ⟨0, 0, 0, 0⟩ ∧ exState.pose_d.z > -10 ∧
    exState.new_odometry = true ∧
    (tick exState).1 = some (command exState) ∧
    (command exState).x ≠ (phiPVec exState).x := by
  refine ⟨rfl, rfl, rfl, rfl, rfl, rfl, by norm_num [exState], rfl,
    by simp [tick, exState], ?_⟩
  norm_num [command, phiPVec, phiIVec, errorIVec, sigma1Vec, sigma2Vec,
    errorVec, errorDVec, poseUnwrapped, denormalizeAngle, mpi, exState, dt,
    Vec4.map, Vec4.zip, Vec4.scale, phi, bound, Vec4.add_def, Vec4.sub_def]

/-- C5 (amended): with `alpha1 = alpha2 = 1/2`, `k_a = 1`, `k_b = 0` and
zero integrals, a single valid tick emits
`command.x = phiValue.x + (3/4)·error.x·dt` — the integral is updated
before the command is composed, so the first tick already contributes one
integral step, and `command.x = phiValue.x` exactly only when the x-axis
position error vanishes. -/
theorem first_tick_command_amended (s : State)
    (ha1 : s.alpha1 = 1/2) (ha2 : s.alpha2 = 1/2)
    (hka : s.k_a = 1) (hkb : s.k_b = 0)
    (hi : s.error_i = ⟨0, 0, 0, 0⟩)
    (hz : s.pose_d.z > -10) (hf : s.new_odometry = true) :
    (tick s).1 = some (command s) ∧
    (command s).x = (phiPVec s).x + (3/4) * (errorVec s).x * dt := by
  refine ⟨by simp [tick, hz, hf], ?_⟩
  have hx : (errorIVec s).x = (errorVec s).x * dt := by
    simp [errorIVec, hi, Vec4.scale, Vec4.add_def]
  simp only [command]
  rw [hx, hka, hkb, ha1, ha2]
  ring

/-- C5 witness: the amended first-tick law at the concrete state
`exState`. -/
theorem first_tick_command_amended_witness :
    (tick exState).1 = some (command exState) ∧
    (command exState).x
      = (phiPVec exState).x + (3/4) * (errorVec exState).x * dt :=
  first_tick_command_amended exState rfl rfl rfl rfl rfl
    (by norm_num [exState]) rfl

/-- C10: gain parsing is all-or-nothing — with more than zero arguments
the constructor reads `argv[1]` through `argv[6]` unconditionally, so any
argument count strictly between 1 and 7 hits an out-of-bounds read
(`none`); the built-in defaults apply exactly when no argument is given;
and with six or more arguments the six gains are read from indices 1-6. -/
theorem initGains_all_or_nothing :
    (∀ (atof : String → ℚ) (argv : List String),
        1 < argv.length → argv.length < 7 → initGains atof argv = none) ∧
    (∀ (atof : String → ℚ) (argv : List String),
        argv.length ≤ 1 → initGains atof argv = some defaultGains) ∧
    (∀ (atof : String → ℚ) (a0 a1 a2 a3 a4 a5 a6 : String)
        (rest : List String),
        initGains atof (a0 :: a1 :: a2 :: a3 :: a4 :: a5 :: a6 :: rest)
          = some ⟨atof a1, atof a2, atof a3, atof a4, atof a5, atof a6⟩) := by
  refine ⟨?_, ?_, ?_⟩
  · intro atof argv h1 h7
    have h6 : argv.get? 6 = none := List.get?_eq_none.mpr (by omega)
    unfold initGains
    rw [if_pos h1]
    rcases o1 : argv.get? 1 with _ | v1
    · rw [Option.none_bind]
    rw [Option.some_bind]
    rcases o2 : argv.get? 2 with _ | v2
    · rw [Option.none_bind]
    rw [Option.some_bind]
    rcases o3 : argv.get? 3 with _ | v3
    · rw [Option.none_bind]
    rw [Option.some_bind]
    rcases o4 : argv.get? 4 with _ | v4
    · rw [Option.none_bind]
    rw [Option.some_bind]
    rcases o5 : argv.get? 5 with _ | v5
    · rw [Option.none_bind]
    rw [Option.some_bind, h6, Option.none_bind]
  · intro atof argv hle
    have : ¬ argv.length > 1 := by omega
    simp [initGains, this]
  · intro atof a0 a1 a2 a3 a4 a5 a6 rest
    simp [initGains, List.get?]

/-- C10 witness: three supplied arguments (`argc = 4`) fail with an
out-of-bounds read, while a bare invocation (`argc = 1`) yields the
built-in defaults. -/
theorem initGains_all_or_nothing_witness :
    initGains (fun _ => 0) ["prog", "1", "2", "3"] = none ∧
    initGains (fun _ => 0) ["prog"] = some defaultGains :=
  ⟨initGains_all_or_nothing.1 (fun _ => 0) ["prog", "1", "2", "3"]
      (by decide) (by decide),
   initGains_all_or_nothing.2.1 (fun _ => 0) ["prog"] (by decide)⟩

end DIIT2FLCFM
